import Mathlib

/-!
Verification of the `hot-templ` web service (`src/main.go`) against its
natural-language specification.

The embedding models the request-level behaviour of the program:

* `Config` mirrors the configuration struct in `run` (defaults from the
  `conf` tags).
* `ServerState` carries the process-wide `State.Count` (`global.Count`) and
  the `scs` session store, modelled as a total map from session token and
  key to an integer, with absent entries reading as `0` (the behaviour of
  `sessionManager.GetInt`).
* `Request` carries the HTTP method, URL path, the session token resolved by
  the `scs.LoadAndSave` middleware, and the form fields of the URL query
  string and of the request body.  `r.ParseForm()` on a POST merges the URL
  query fields into `r.Form` together with the body fields when the body
  parses; its error is discarded by the handler, and the query fields are
  present in `r.Form` even when the body does not parse.
* `rootHandler` mirrors the closure registered on `"/"` in `run`
  (src/main.go lines 110-137); `handle` mirrors the `http.ServeMux`
  dispatch over the four registered patterns, including the trailing-slash
  redirect the mux installs for the subtree pattern `"/assets/"`.
* counters are Go `int`s that start at 0 and are only ever incremented once
  per request, so wrap-around is unreachable in a process lifetime and the
  counters are modelled on unbounded `Int`.
-/

/-- Configuration of `run`, with the defaults of the `conf` struct tags.
Durations are in milliseconds. -/
structure Config where
  port : Nat
  host : String
  healthPath : String
  versionPath : String
  readTimeoutMs : Nat
  writeTimeoutMs : Nat
  idleTimeoutMs : Nat
  shutdownTimeoutMs : Nat
deriving DecidableEq, Repr

/-- The default configuration: `PORT=8080`, host `127.0.0.1`, `/healthz`,
`/version`, read 5s, write 10s, idle 120s, shutdown 5s. -/
def defaultConfig : Config :=
  { port := 8080
    host := "127.0.0.1"
    healthPath := "/healthz"
    versionPath := "/version"
    readTimeoutMs := 5000
    writeTimeoutMs := 10000
    idleTimeoutMs := 120000
    shutdownTimeoutMs := 5000 }

/-- The bound, in milliseconds, on the graceful-drain wait of the shutdown
sequence: `run` builds the shutdown context with
`context.WithTimeout(context.Background(), time.Minute)` (src/main.go line
160), a constant one minute that does not read `cfg.ShutdownTimeout`. -/
def shutdownWaitBoundMs (_cfg : Config) : Nat := 60000

/-- Mutable state of the process: `global : State` (the `Count` field) and
the `scs` session store, modelled as session token → key → stored integer,
with `0` for absent entries (the default of `sessionManager.GetInt`). -/
structure ServerState where
  global : Int
  sessions : String → String → Int

/-- State at process start: `var global State` zero-initialises the counter,
and every session counter reads as `0` before it is first written. -/
def initState : ServerState :=
  { global := 0, sessions := fun _ _ => 0 }

/-- The session key used by the root handler: `const key = "count"`. -/
def countKey : String := "count"

/-- `sessionManager.GetInt(r.Context(), k)` for the session of the request:
the stored integer, `0` when absent. -/
def sessionGet (st : ServerState) (tok k : String) : Int :=
  st.sessions tok k

/-- `sessionManager.Put(r.Context(), k, v)` for the session `tok`: updates
that session's entry for `k` and nothing else. -/
def sessionPut (st : ServerState) (tok k : String) (v : Int) : ServerState :=
  { st with
    sessions := fun t k2 => if t = tok ∧ k2 = k then v else st.sessions t k2 }

/-- An HTTP request as seen by the handlers: method, URL path, the session
token the `scs` middleware resolved from the cookie, the field names of the
URL query string, the field names of the request body, and whether the body
parses as a form (`bodyOK`). -/
structure Request where
  method : String
  path : String
  session : String
  queryFields : List String
  bodyFields : List String
  bodyOK : Bool
deriving DecidableEq, Repr

/-- The field names of `r.Form` after `r.ParseForm()` on a POST: the URL
query fields always, plus the body fields when the body parses as a form;
the parse error is discarded by the handler and the query fields remain. -/
def formFields (r : Request) : List String :=
  r.queryFields ++ (if r.bodyOK then r.bodyFields else [])

/-- `r.Form.Has(name)` after `r.ParseForm()`. -/
def formHas (r : Request) (name : String) : Bool :=
  (formFields r).contains name

/-- Responses the service produces, one constructor per handler outcome. -/
inductive Response where
  /-- The rendered counter page carrying both counter values. -/
  | page (globalCount userCount : Int)
  /-- `http.Error` with `http.StatusText(http.StatusMethodNotAllowed)`. -/
  | methodNotAllowed
  /-- The `healthz` handler's response. -/
  | healthOk
  /-- The version handler's build/version metadata response. -/
  | versionInfo
  /-- The embedded file server's response for the given stripped subpath. -/
  | asset (subpath : String)
  /-- The `ServeMux` redirect from `/assets` to the subtree `/assets/`. -/
  | assetsRedirect
deriving DecidableEq, Repr

/-- Modelled from the spec: the `page` templ component (its `.templ` source
is not under `src/`) renders an HTML document embedding the two counter
values passed to it, returned with a success status.  The embedding keeps
the component abstract and records exactly the two values it is given. -/
def page (globalCount userCount : Int) : Response :=
  Response.page globalCount userCount

/-- HTTP status of a response, where the embedding determines it: rendered
pages and `healthz` write with the implicit `200`, `http.Error` writes
`405`; the file-server statuses are the library's and are left open. -/
def statusOf : Response → Option Nat
  | Response.page _ _ => some 200
  | Response.methodNotAllowed => some 405
  | Response.healthOk => some 200
  | Response.versionInfo => some 200
  | Response.asset _ => none
  | Response.assetsRedirect => some 301

/-- Plain-text body of a response, where the embedding determines it:
`healthz` writes `"ok"`, `http.Error` writes the status text and a
newline. -/
def bodyTextOf : Response → Option String
  | Response.methodNotAllowed => some "Method Not Allowed\n"
  | Response.healthOk => some "ok"
  | _ => none

/-- The closure registered on `"/"` (src/main.go lines 110-137).  GET reads
both counters and renders; POST parses the form, increments the global
counter when `global` is present, read-increments-writes the session
counter when `user` is present, re-reads the session counter and renders;
any other method answers `http.Error(w, ..., 405)` and touches no state. -/
def rootHandler (st : ServerState) (r : Request) : ServerState × Response :=
  if r.method = "GET" then
    let userCount := sessionGet st r.session countKey
    (st, page st.global userCount)
  else if r.method = "POST" then
    let st1 := if formHas r "global" then { st with global := st.global + 1 } else st
    let st2 :=
      if formHas r "user" then
        let currentCount := sessionGet st1 r.session countKey
        sessionPut st1 r.session countKey (currentCount + 1)
      else st1
    let userCount := sessionGet st2 r.session countKey
    (st2, page st2.global userCount)
  else
    (st, Response.methodNotAllowed)

/-- The route a path is dispatched to. -/
inductive Route where
  | health
  | version
  | assets
  | assetsRedirect
  | root
deriving DecidableEq, Repr

/-- Prefix test on path strings (the subtree matching of `http.ServeMux`),
computed on the character lists so that it evaluates by kernel
reduction. -/
def pathHasPre (pre s : String) : Bool :=
  List.isPrefixOf pre.data s.data

/-- `http.ServeMux` dispatch over the registrations in `run`: the exact
patterns `cfg.HealthPath` and `cfg.VersionPath`, the subtree pattern
`"/assets/"` (for which the mux also redirects the exact path `"/assets"`
to `"/assets/"`), and the catch-all `"/"`.  Paths are assumed already in
the mux's cleaned form, and the configured health/version paths are exact
(non-slash-terminated) patterns, as their defaults are. -/
def route (cfg : Config) (path : String) : Route :=
  if path = cfg.healthPath then Route.health
  else if path = cfg.versionPath then Route.version
  else if pathHasPre "/assets/" path then Route.assets
  else if path = "/assets" then Route.assetsRedirect
  else Route.root

/-- Modelled from the spec: the version handler (`VersionInfo`, not under
`src/`) returns build/version metadata and has no side effect on counter or
session state. -/
def versionHandler (st : ServerState) : ServerState × Response :=
  (st, Response.versionInfo)

/-- The `healthz` handler (src/main.go lines 201-203): writes `"ok"` with
the implicit success status, ignores the request, touches no state. -/
def healthzHandler (st : ServerState) : ServerState × Response :=
  (st, Response.healthOk)

/-- One request through the served mux: dispatch by path, then the matched
handler.  The file server serves the path with the `/assets/` prefix
stripped (`http.StripPrefix`); it and the version handler are stateless. -/
def handle (cfg : Config) (st : ServerState) (r : Request) : ServerState × Response :=
  match route cfg r.path with
  | Route.health => healthzHandler st
  | Route.version => versionHandler st
  | Route.assets => (st, Response.asset (String.drop r.path 8))
  | Route.assetsRedirect => (st, Response.assetsRedirect)
  | Route.root => rootHandler st r

/-- A sequence of requests processed one after the other, returning the
final state. -/
def handleList (cfg : Config) (st : ServerState) (rs : List Request) : ServerState :=
  rs.foldl (fun s r => (handle cfg s r).1) st

/-- Outcomes of a `run` invocation that the exit-code contract speaks
about. -/
inductive RunEvent where
  | helpRequested
  | configError
  | cleanShutdown
  | listenFailure
deriving DecidableEq, Repr

/-- The process exit status for each outcome, from `main` and `run`:
`run` returns `nil` after printing help (`ErrHelpWanted`) and after a clean
shutdown, so `main` returns normally with status 0; a configuration error
propagates as an error and `main` calls `os.Exit(1)`; a listen failure is
logged and then `panic(zerr)` is called in the serving goroutine
(src/main.go line 155), and an unrecovered panic terminates a Go process
with the runtime's exit status 2, never reaching the exit-1 path. -/
def processExitCode : RunEvent → Nat
  | RunEvent.helpRequested => 0
  | RunEvent.configError => 1
  | RunEvent.cleanShutdown => 0
  | RunEvent.listenFailure => 2

/-- Non-negativity of every counter in a state. -/
def StateNonNeg (st : ServerState) : Prop :=
  0 ≤ st.global ∧ ∀ s k, 0 ≤ st.sessions s k

/-- Writing a session entry makes that entry read back the written value. -/
theorem sessionGet_sessionPut_same (st : ServerState) (tok k : String) (v : Int) :
    sessionGet (sessionPut st tok k v) tok k = v := by
  simp [sessionGet, sessionPut]

/-- Writing a session entry leaves every other entry unchanged. -/
theorem sessionGet_sessionPut_other (st : ServerState) (tok k : String) (v : Int)
    (s2 k2 : String) (h : s2 ≠ tok ∨ k2 ≠ k) :
    sessionGet (sessionPut st tok k v) s2 k2 = sessionGet st s2 k2 := by
  have hne : ¬(s2 = tok ∧ k2 = k) := by
    rcases h with h | h
    · exact fun hc => h hc.1
    · exact fun hc => h hc.2
  simp [sessionGet, sessionPut, hne]

/-- Characterisation of the POST branch of the root handler: the global
counter gains one exactly when `global` is a form field, the requesting
session's counter gains one exactly when `user` is, every other session
entry is unchanged, and the rendered page carries the post-mutation values
of both counters. -/
theorem rootHandler_post (st : ServerState) (r : Request) (hm : r.method = "POST") :
    (rootHandler st r).1.global
        = st.global + (if formHas r "global" then 1 else 0)
    ∧ sessionGet (rootHandler st r).1 r.session countKey
        = sessionGet st r.session countKey + (if formHas r "user" then 1 else 0)
    ∧ (∀ s2 k, s2 ≠ r.session ∨ k ≠ countKey →
        sessionGet (rootHandler st r).1 s2 k = sessionGet st s2 k)
    ∧ (rootHandler st r).2
        = page (rootHandler st r).1.global
            (sessionGet (rootHandler st r).1 r.session countKey) := by
  have hng : r.method ≠ "GET" := by rw [hm]; decide
  rw [rootHandler]
  rw [if_neg hng, if_pos hm]
  refine ⟨?_, ?_, ?_, ?_⟩
  · by_cases hg : formHas r "global" <;> by_cases hu : formHas r "user" <;>
      simp [hg, hu, sessionPut, sessionGet]
  · by_cases hg : formHas r "global" <;> by_cases hu : formHas r "user" <;>
      simp [hg, hu, sessionPut, sessionGet]
  · intro s2 k h
    have hne : ¬(s2 = r.session ∧ k = countKey) := by
      rcases h with h | h
      · exact fun hc => h hc.1
      · exact fun hc => h hc.2
    by_cases hg : formHas r "global" <;> by_cases hu : formHas r "user" <;>
      simp [hg, hu, sessionPut, sessionGet, hne]
  · by_cases hg : formHas r "global" <;> by_cases hu : formHas r "user" <;>
      simp [hg, hu, page]

/-- A path dispatched to the catch-all route is served by the root
handler. -/
theorem handle_root (cfg : Config) (st : ServerState) (r : Request)
    (h : route cfg r.path = Route.root) :
    handle cfg st r = rootHandler st r := by
  rw [handle, h]

/-- A POST request to `/` from session `alice` whose body carries both the
`global` and the `user` fields. -/
def reqPostBoth : Request :=
  { method := "POST", path := "/", session := "alice"
    queryFields := [], bodyFields := ["global", "user"], bodyOK := true }

/-- A DELETE request to `/`. -/
def reqDelete : Request :=
  { method := "DELETE", path := "/", session := "alice"
    queryFields := [], bodyFields := [], bodyOK := true }

/-- C1: on a POST to the root path, the global counter is incremented by
one exactly when `global` is a field of the parsed form, the requesting
session's counter is read, incremented and written back exactly when
`user` is (so with neither field both counters are unchanged, and both
increments can happen in one request), and the rendered page carries the
post-mutation values of both counters. -/
theorem post_counter_semantics (st : ServerState) (r : Request)
    (hm : r.method = "POST") :
    (rootHandler st r).1.global
        = st.global + (if formHas r "global" then 1 else 0)
    ∧ sessionGet (rootHandler st r).1 r.session countKey
        = sessionGet st r.session countKey + (if formHas r "user" then 1 else 0)
    ∧ (rootHandler st r).2
        = page (rootHandler st r).1.global
            (sessionGet (rootHandler st r).1 r.session countKey) :=
  have h := rootHandler_post st r hm
  ⟨h.1, h.2.1, h.2.2.2⟩

/-- Witness for C1 at a concrete POST carrying both fields. -/
theorem post_counter_semantics_witness :
    reqPostBoth.method = "POST"
    ∧ ((rootHandler initState reqPostBoth).1.global
          = initState.global + (if formHas reqPostBoth "global" then 1 else 0)
      ∧ sessionGet (rootHandler initState reqPostBoth).1 reqPostBoth.session countKey
          = sessionGet initState reqPostBoth.session countKey
            + (if formHas reqPostBoth "user" then 1 else 0)
      ∧ (rootHandler initState reqPostBoth).2
          = page (rootHandler initState reqPostBoth).1.global
              (sessionGet (rootHandler initState reqPostBoth).1 reqPostBoth.session countKey)) :=
  ⟨rfl, post_counter_semantics initState reqPostBoth rfl⟩

/-- C6: a request to the root path whose method is neither GET nor POST
leaves the state untouched and is answered with status 405 and the
plain-text status message. -/
theorem non_get_post_rejected (st : ServerState) (r : Request)
    (h1 : r.method ≠ "GET") (h2 : r.method ≠ "POST") :
    rootHandler st r = (st, Response.methodNotAllowed)
    ∧ statusOf (rootHandler st r).2 = some 405
    ∧ bodyTextOf (rootHandler st r).2 = some "Method Not Allowed\n" := by
  rw [rootHandler, if_neg h1, if_neg h2]
  exact ⟨rfl, rfl, rfl⟩

/-- Witness for C6 at a concrete DELETE request. -/
theorem non_get_post_rejected_witness :
    reqDelete.method ≠ "GET"
    ∧ reqDelete.method ≠ "POST"
    ∧ (rootHandler initState reqDelete = (initState, Response.methodNotAllowed)
      ∧ statusOf (rootHandler initState reqDelete).2 = some 405
      ∧ bodyTextOf (rootHandler initState reqDelete).2 = some "Method Not Allowed\n") :=
  ⟨by decide, by decide,
    non_get_post_rejected initState reqDelete (by decide) (by decide)⟩

/-- C7: a request whose path is the configured health path is answered, for
any method and request content, with status 200 and body exactly `"ok"`,
and the state is untouched. -/
theorem health_endpoint_ok (cfg : Config) (st : ServerState) (r : Request)
    (h : r.path = cfg.healthPath) :
    handle cfg st r = (st, Response.healthOk)
    ∧ statusOf (handle cfg st r).2 = some 200
    ∧ bodyTextOf (handle cfg st r).2 = some "ok" := by
  have hr : route cfg r.path = Route.health := by rw [route, if_pos h]
  rw [handle, hr]
  exact ⟨rfl, rfl, rfl⟩

/-- A POST request to the health path with a session and body fields, to
exercise the health handler with a non-GET method and request content. -/
def reqHealthPost : Request :=
  { method := "POST", path := "/healthz", session := "alice"
    queryFields := ["global"], bodyFields := ["user"], bodyOK := true }

/-- Witness for C7 at a concrete POST to `/healthz` under the default
configuration. -/
theorem health_endpoint_ok_witness :
    reqHealthPost.path = defaultConfig.healthPath
    ∧ (handle defaultConfig initState reqHealthPost = (initState, Response.healthOk)
      ∧ statusOf (handle defaultConfig initState reqHealthPost).2 = some 200
      ∧ bodyTextOf (handle defaultConfig initState reqHealthPost).2 = some "ok") :=
  ⟨by decide, health_endpoint_ok defaultConfig initState reqHealthPost (by decide)⟩

/-- C9: field presence is decided by the parsed form that merges the URL
query string with the request body: a name is present exactly when it is a
query field or (when the body parses) a body field, and a POST whose query
string carries `global` (resp. `user`) increments the corresponding counter
whatever the body holds. -/
theorem form_merges_query_and_body (st : ServerState) (r : Request)
    (hm : r.method = "POST") :
    (formHas r "global" = true ↔
      ("global" ∈ r.queryFields ∨ (r.bodyOK = true ∧ "global" ∈ r.bodyFields)))
    ∧ ("global" ∈ r.queryFields →
        (rootHandler st r).1.global = st.global + 1)
    ∧ ("user" ∈ r.queryFields →
        sessionGet (rootHandler st r).1 r.session countKey
          = sessionGet st r.session countKey + 1) := by
  have hchar : ∀ name : String, formHas r name = true ↔
      (name ∈ r.queryFields ∨ (r.bodyOK = true ∧ name ∈ r.bodyFields)) := by
    intro name
    cases hb : r.bodyOK <;> simp [formHas, formFields, hb]
  refine ⟨hchar "global", ?_, ?_⟩
  · intro hq
    have hg : formHas r "global" = true := (hchar "global").2 (Or.inl hq)
    have h := (rootHandler_post st r hm).1
    rw [hg] at h
    simpa using h
  · intro hq
    have hu : formHas r "user" = true := (hchar "user").2 (Or.inl hq)
    have h := (rootHandler_post st r hm).2.1
    rw [hu] at h
    simpa using h

/-- A POST request to `/` with an empty, unparseable body whose URL query
string carries both `global` and `user`. -/
def reqPostQueryOnly : Request :=
  { method := "POST", path := "/", session := "alice"
    queryFields := ["global", "user"], bodyFields := [], bodyOK := false }

/-- Witness for C9 at a concrete POST whose body does not parse and whose
query string carries both fields. -/
theorem form_merges_query_and_body_witness :
    reqPostQueryOnly.method = "POST"
    ∧ "global" ∈ reqPostQueryOnly.queryFields
    ∧ "user" ∈ reqPostQueryOnly.queryFields
    ∧ reqPostQueryOnly.bodyOK = false
    ∧ ((formHas reqPostQueryOnly "global" = true ↔
          ("global" ∈ reqPostQueryOnly.queryFields
            ∨ (reqPostQueryOnly.bodyOK = true ∧ "global" ∈ reqPostQueryOnly.bodyFields)))
      ∧ ("global" ∈ reqPostQueryOnly.queryFields →
          (rootHandler initState reqPostQueryOnly).1.global = initState.global + 1)
      ∧ ("user" ∈ reqPostQueryOnly.queryFields →
          sessionGet (rootHandler initState reqPostQueryOnly).1 reqPostQueryOnly.session countKey
            = sessionGet initState reqPostQueryOnly.session countKey + 1)) :=
  ⟨rfl, by decide, by decide, rfl,
    form_merges_query_and_body initState reqPostQueryOnly rfl⟩

/-- Effect of a sequence of POSTs carrying `user`, all from session `s` and
dispatched to the root handler, on the session store: session `s` gains one
per request and every other session entry is unchanged. -/
theorem handleList_user_effect (cfg : Config) (s : String) (rs : List Request)
    (h : ∀ r ∈ rs, r.method = "POST" ∧ formHas r "user" = true
        ∧ route cfg r.path = Route.root ∧ r.session = s) :
    ∀ st : ServerState,
      sessionGet (handleList cfg st rs) s countKey
          = sessionGet st s countKey + (rs.length : Int)
      ∧ ∀ s2 k, s2 ≠ s →
          sessionGet (handleList cfg st rs) s2 k = sessionGet st s2 k := by
  induction rs with
  | nil => intro st; simp [handleList]
  | cons r rs ih =>
    intro st
    obtain ⟨hm, hu, hroute, hs⟩ := h r (List.mem_cons_self r rs)
    have hrs := ih (fun r2 hr2 => h r2 (List.mem_cons_of_mem r hr2))
    have hstep : handleList cfg st (r :: rs) = handleList cfg (handle cfg st r).1 rs := rfl
    have hhr : handle cfg st r = rootHandler st r := handle_root cfg st r hroute
    have hpost := rootHandler_post st r hm
    have hsame : sessionGet (rootHandler st r).1 s countKey
        = sessionGet st s countKey + 1 := by
      have := hpost.2.1
      rw [hs, hu] at this
      simpa using this
    have hother : ∀ s2 k, s2 ≠ s →
        sessionGet (rootHandler st r).1 s2 k = sessionGet st s2 k := by
      intro s2 k hne
      exact hpost.2.2.1 s2 k (Or.inl (hs ▸ hne))
    obtain ⟨ih1, ih2⟩ := hrs (rootHandler st r).1
    constructor
    · rw [hstep, hhr, ih1, hsame]
      simp only [List.length_cons]
      push_cast
      ring
    · intro s2 k hne
      rw [hstep, hhr, ih2 s2 k hne, hother s2 k hne]

/-- C3: after N sequentially-processed POSTs to the root path carrying
`user`, all from session `s` and starting at process start, session `s`'s
counter equals N, while any distinct session's counter is unchanged by
those requests and reads as 0, as it did before its own first POST. -/
theorem user_posts_count_session (cfg : Config) (s : String) (rs : List Request)
    (h : ∀ r ∈ rs, r.method = "POST" ∧ formHas r "user" = true
        ∧ route cfg r.path = Route.root ∧ r.session = s) :
    sessionGet (handleList cfg initState rs) s countKey = (rs.length : Int)
    ∧ ∀ s2 k, s2 ≠ s →
        (sessionGet (handleList cfg initState rs) s2 k = 0
          ∧ sessionGet initState s2 k = 0) := by
  obtain ⟨h1, h2⟩ := handleList_user_effect cfg s rs h initState
  refine ⟨?_, ?_⟩
  · rw [h1]; simp [initState, sessionGet]
  · intro s2 k hne
    refine ⟨?_, rfl⟩
    rw [h2 s2 k hne]; rfl

/-- Two POST requests to `/` from session `alice` carrying `user`. -/
def reqUserAlice : Request :=
  { method := "POST", path := "/", session := "alice"
    queryFields := [], bodyFields := ["user"], bodyOK := true }

/-- Witness for C3 at a concrete two-request sequence from one session. -/
theorem user_posts_count_session_witness :
    (∀ r ∈ [reqUserAlice, reqUserAlice], r.method = "POST"
        ∧ formHas r "user" = true
        ∧ route defaultConfig r.path = Route.root ∧ r.session = "alice")
    ∧ (sessionGet (handleList defaultConfig initState [reqUserAlice, reqUserAlice])
          "alice" countKey = (([reqUserAlice, reqUserAlice] : List Request).length : Int)
      ∧ ∀ s2 k, s2 ≠ "alice" →
          (sessionGet (handleList defaultConfig initState [reqUserAlice, reqUserAlice]) s2 k = 0
            ∧ sessionGet initState s2 k = 0)) :=
  ⟨by decide, user_posts_count_session defaultConfig "alice"
      [reqUserAlice, reqUserAlice] (by decide)⟩

/-- Effect of a sequence of POSTs carrying `global` dispatched to the root
handler: the global counter gains one per request. -/
theorem handleList_global_effect (cfg : Config) (rs : List Request)
    (h : ∀ r ∈ rs, r.method = "POST" ∧ formHas r "global" = true
        ∧ route cfg r.path = Route.root) :
    ∀ st : ServerState,
      (handleList cfg st rs).global = st.global + (rs.length : Int) := by
  induction rs with
  | nil => intro st; simp [handleList]
  | cons r rs ih =>
    intro st
    obtain ⟨hm, hg, hroute⟩ := h r (List.mem_cons_self r rs)
    have hrs := ih (fun r2 hr2 => h r2 (List.mem_cons_of_mem r hr2))
    have hstep : handleList cfg st (r :: rs) = handleList cfg (handle cfg st r).1 rs := rfl
    have hhr : handle cfg st r = rootHandler st r := handle_root cfg st r hroute
    have hglobal : (rootHandler st r).1.global = st.global + 1 := by
      have := (rootHandler_post st r hm).1
      rw [hg] at this
      simpa using this
    rw [hstep, hhr, hrs (rootHandler st r).1, hglobal]
    simp only [List.length_cons]
    push_cast
    ring

/-- C4: after N sequentially-processed POSTs to the root path carrying
`global`, starting from the zero-initialised counter at process start, the
global counter equals N. -/
theorem global_posts_count (cfg : Config) (rs : List Request)
    (h : ∀ r ∈ rs, r.method = "POST" ∧ formHas r "global" = true
        ∧ route cfg r.path = Route.root) :
    (handleList cfg initState rs).global = (rs.length : Int) := by
  rw [handleList_global_effect cfg rs h initState]
  simp [initState]

/-- A POST request to `/` carrying `global` in its body. -/
def reqGlobal : Request :=
  { method := "POST", path := "/", session := "bob"
    queryFields := [], bodyFields := ["global"], bodyOK := true }

/-- Witness for C4 at a concrete three-request sequence. -/
theorem global_posts_count_witness :
    (∀ r ∈ [reqGlobal, reqGlobal, reqGlobal], r.method = "POST"
        ∧ formHas r "global" = true ∧ route defaultConfig r.path = Route.root)
    ∧ (handleList defaultConfig initState [reqGlobal, reqGlobal, reqGlobal]).global
        = (([reqGlobal, reqGlobal, reqGlobal] : List Request).length : Int) :=
  ⟨by decide, global_posts_count defaultConfig [reqGlobal, reqGlobal, reqGlobal] (by decide)⟩

/-- The root handler never decreases the global counter or any session
entry, for any method. -/
theorem rootHandler_mono (st : ServerState) (r : Request) :
    st.global ≤ (rootHandler st r).1.global
    ∧ ∀ s k, sessionGet st s k ≤ sessionGet (rootHandler st r).1 s k := by
  by_cases hg : r.method = "GET"
  · rw [rootHandler, if_pos hg]
    exact ⟨le_refl _, fun s k => le_refl _⟩
  · by_cases hp : r.method = "POST"
    · have hpost := rootHandler_post st r hp
      refine ⟨?_, ?_⟩
      · rw [hpost.1]
        split <;> omega
      · intro s k
        by_cases hsk : s = r.session ∧ k = countKey
        · obtain ⟨h1, h2⟩ := hsk
          subst h1; subst h2
          rw [hpost.2.1]
          split <;> omega
        · have hne : s ≠ r.session ∨ k ≠ countKey := by
            by_contra hc
            push_neg at hc
            exact hsk ⟨hc.1, hc.2⟩
          rw [hpost.2.2.1 s k hne]
    · rw [rootHandler, if_neg hg, if_neg hp]
      exact ⟨le_refl _, fun s k => le_refl _⟩

/-- Every route either leaves the state untouched or is the root
handler. -/
theorem handle_state_or_root (cfg : Config) (st : ServerState) (r : Request) :
    (handle cfg st r).1 = st ∨ handle cfg st r = rootHandler st r := by
  rw [handle]
  cases hr : route cfg r.path <;> simp [healthzHandler, versionHandler]

/-- C5: every request of the HTTP surface preserves non-negativity of the
global counter and of every session counter, and never decreases either:
no handler decrements or resets a counter. -/
theorem surface_counters_monotone (cfg : Config) (st : ServerState) (r : Request)
    (h : StateNonNeg st) :
    StateNonNeg (handle cfg st r).1
    ∧ st.global ≤ (handle cfg st r).1.global
    ∧ ∀ s k, sessionGet st s k ≤ sessionGet (handle cfg st r).1 s k := by
  have hmono : st.global ≤ (handle cfg st r).1.global
      ∧ ∀ s k, sessionGet st s k ≤ sessionGet (handle cfg st r).1 s k := by
    rcases handle_state_or_root cfg st r with heq | heq
    · rw [heq]
      exact ⟨le_refl _, fun s k => le_refl _⟩
    · rw [heq]
      exact rootHandler_mono st r
  refine ⟨⟨le_trans h.1 hmono.1, fun s k => le_trans (h.2 s k) (hmono.2 s k)⟩, hmono⟩

/-- Witness for C5 at a concrete POST from the initial state. -/
theorem surface_counters_monotone_witness :
    StateNonNeg initState
    ∧ (StateNonNeg (handle defaultConfig initState reqPostBoth).1
      ∧ initState.global ≤ (handle defaultConfig initState reqPostBoth).1.global
      ∧ ∀ s k, sessionGet initState s k
          ≤ sessionGet (handle defaultConfig initState reqPostBoth).1 s k) :=
  ⟨⟨le_refl 0, fun _ _ => le_refl 0⟩,
    surface_counters_monotone defaultConfig initState reqPostBoth
      ⟨le_refl 0, fun _ _ => le_refl 0⟩⟩

/-- C10: a request whose path matches none of the more specific
registrations — the configured health path, the configured version path,
or the `/assets/` subtree (including its `/assets` redirect) — is
dispatched to the catch-all root handler, and a GET to such a path returns
the rendered counter page with success status rather than a 404. -/
theorem catchall_dispatch (cfg : Config) (st : ServerState) (r : Request)
    (h1 : r.path ≠ cfg.healthPath) (h2 : r.path ≠ cfg.versionPath)
    (h3 : ¬ (pathHasPre "/assets/" r.path = true)) (h4 : r.path ≠ "/assets") :
    route cfg r.path = Route.root
    ∧ handle cfg st r = rootHandler st r
    ∧ (r.method = "GET" →
        handle cfg st r = (st, page st.global (sessionGet st r.session countKey))
        ∧ statusOf (handle cfg st r).2 = some 200) := by
  have hroute : route cfg r.path = Route.root := by
    rw [route, if_neg h1, if_neg h2, if_neg h3, if_neg h4]
  have hh : handle cfg st r = rootHandler st r := handle_root cfg st r hroute
  refine ⟨hroute, hh, ?_⟩
  intro hget
  rw [hh, rootHandler, if_pos hget]
  exact ⟨rfl, rfl⟩

/-- A GET request to a path registered nowhere. -/
def reqGetUnregistered : Request :=
  { method := "GET", path := "/no/such/route", session := "alice"
    queryFields := [], bodyFields := [], bodyOK := true }

/-- Witness for C10 at a concrete GET to an unregistered path under the
default configuration. -/
theorem catchall_dispatch_witness :
    reqGetUnregistered.path ≠ defaultConfig.healthPath
    ∧ reqGetUnregistered.path ≠ defaultConfig.versionPath
    ∧ ¬ (pathHasPre "/assets/" reqGetUnregistered.path = true)
    ∧ reqGetUnregistered.path ≠ "/assets"
    ∧ (route defaultConfig reqGetUnregistered.path = Route.root
      ∧ handle defaultConfig initState reqGetUnregistered
          = rootHandler initState reqGetUnregistered
      ∧ (reqGetUnregistered.method = "GET" →
          handle defaultConfig initState reqGetUnregistered
            = (initState, page initState.global
                (sessionGet initState reqGetUnregistered.session countKey))
          ∧ statusOf (handle defaultConfig initState reqGetUnregistered).2 = some 200)) :=
  ⟨by decide, by decide, by decide, by decide,
    catchall_dispatch defaultConfig initState reqGetUnregistered
      (by decide) (by decide) (by decide) (by decide)⟩

/-- C2 (code divergence): the graceful-drain wait of the shutdown sequence
is bounded by the hardcoded `time.Minute`, for every configuration, and not
by the configured `ShutdownTimeout`: under the default configuration the
configured timeout is 5 seconds while the code waits up to 60 seconds, so
`cfg.ShutdownTimeout` is parsed but never used. -/
theorem shutdown_bound_ignores_config :
    (∀ cfg : Config, shutdownWaitBoundMs cfg = 60000)
    ∧ defaultConfig.shutdownTimeoutMs = 5000
    ∧ defaultConfig.shutdownTimeoutMs < shutdownWaitBoundMs defaultConfig :=
  ⟨fun _ => rfl, rfl, by decide⟩

/-- C8 counterexample: a listener bind failure does not terminate the
process with exit code 1 — the serving goroutine logs and panics, and the
unrecovered panic ends the process with the Go runtime's status 2. -/
theorem listen_failure_exit_not_one :
    processExitCode RunEvent.listenFailure ≠ 1 := by decide

/-- C8 amended: exit code 0 on clean shutdown and on a help request, 1 on a
configuration error, while a listener bind failure is logged and then
panics, terminating the process with the runtime's panic status 2 rather
than through the exit-1 path. -/
theorem process_exit_codes :
    processExitCode RunEvent.cleanShutdown = 0
    ∧ processExitCode RunEvent.helpRequested = 0
    ∧ processExitCode RunEvent.configError = 1
    ∧ processExitCode RunEvent.listenFailure = 2 := by decide
